import Mathlib

/-!
Verification of the ARP asynchronous reprojection library (arp.cpp / arp.h,
repository AndrewSumsion/ARP).

Modelling conventions:
* machine floating point (`double` / `float`) is modelled by `ℚ`;
* GL object handles and array indices are modelled by `ℕ`, C++ `int`
  dimensions by `ℤ`;
* the two C++ threads (application thread and reprojection loop) are
  modelled by an interleaving of atomic steps on an explicit state record;
* `acquireImage`, which blocks on a condition variable, returns `Option`:
  `none` means the call does not return in the current state;
* output written to `std::cout` is modelled as a returned list of strings.
-/

namespace ARP

/-- Reading `v[i]` on a `std::vector`, with an explicit fallback for an
out-of-range index (which does not occur in the embedded code paths). -/
def nth {α : Type} (d : α) : List α → ℕ → α
  | [], _ => d
  | a :: _, 0 => a
  | _ :: t, n + 1 => nth d t n

/-- Writing `v[i] = x` on a `std::vector`; an out-of-range write is dropped
(it does not occur in the embedded code paths). -/
def setNth {α : Type} : List α → ℕ → α → List α
  | [], _, _ => []
  | _ :: t, 0, v => v :: t
  | a :: t, n + 1, v => a :: setNth t n v

theorem length_setNth {α : Type} (l : List α) (i : ℕ) (v : α) :
    (setNth l i v).length = l.length := by
  induction l generalizing i with
  | nil => rfl
  | cons a t ih =>
    cases i with
    | zero => rfl
    | succ n => simp [setNth, ih]

theorem nth_setNth_self {α : Type} (d : α) (l : List α) (i : ℕ) (v : α) :
    nth d (setNth l i v) i = if i < l.length then v else d := by
  induction l generalizing i with
  | nil => simp [setNth, nth]
  | cons a t ih =>
    cases i with
    | zero => simp [setNth, nth]
    | succ n =>
      simp only [setNth, nth, ih, List.length_cons, Nat.add_lt_add_iff_right]

theorem nth_setNth_ne {α : Type} (d : α) (l : List α) (i j : ℕ) (v : α)
    (h : j ≠ i) : nth d (setNth l i v) j = nth d l j := by
  induction l generalizing i j with
  | nil => simp [setNth]
  | cons a t ih =>
    cases i with
    | zero =>
      cases j with
      | zero => exact absurd rfl h
      | succ m => simp [setNth, nth]
    | succ n =>
      cases j with
      | zero => simp [setNth, nth]
      | succ m => simpa [setNth, nth] using ih n m (by omega)

/-! ## Data model (arp.h) -/

/-- `glm::vec3`, over `ℚ`. -/
structure Vec3 where
  x : ℚ
  y : ℚ
  z : ℚ
deriving DecidableEq

/-- `glm::quat` (w, x, y, z), over `ℚ`. -/
structure Quat where
  w : ℚ
  x : ℚ
  y : ℚ
  z : ℚ
deriving DecidableEq

/-- `arp::Pose`: a position and an orientation.  The optional 64-byte opaque
payload (`dataRaw`) is never read or written by the embedded code, so it is
omitted. -/
structure Pose where
  position : Vec3
  orientation : Quat
deriving DecidableEq

/-- `arp::PoseInfo`: the absolute inputs that produced a pose. -/
structure PoseInfo where
  mouseX : ℚ
  mouseY : ℚ
  time : ℚ
  realPose : Pose
deriving DecidableEq

/-- The zero vector / identity quaternion / zeroed pose, matching
value-initialised statics in arp.cpp. -/
def zeroVec3 : Vec3 := ⟨0, 0, 0⟩

def identityQuat : Quat := ⟨1, 0, 0, 0⟩

def zeroPose : Pose := ⟨zeroVec3, ⟨0, 0, 0, 0⟩⟩

def zeroPoseInfo : PoseInfo := ⟨0, 0, 0, zeroPose⟩

/-- `arp::Swapchain` state (arp.h lines 54-98).  GL texture / framebuffer
handles are not modelled individually; `resourcesAllocated` records whether the
constructor reached the `glGenTextures` / `glGenFramebuffers` calls (it returns
early before them when the library has not been initialised). -/
structure Swapchain where
  width : ℤ
  height : ℤ
  numImages : ℕ
  index : ℕ
  acquiredStatus : List ℕ
  resourcesAllocated : Bool
deriving DecidableEq

/-- The `Swapchain::Swapchain(width, height, numImages)` constructor
(arp.cpp lines 156-210).  `inited` is the file-scope `initialized` flag.  The
member initialiser list zero-fills `acquiredStatus` (a value-initialised
`std::vector<uint8_t>`) and sets `index = 0` before the early-return check, so
those fields are identical in both branches; the second component is the
diagnostic output. -/
def mkSwapchain (inited : Bool) (width height : ℤ) (numImages : ℕ) :
    Swapchain × List String :=
  if inited then
    ({ width := width, height := height, numImages := numImages, index := 0,
       acquiredStatus := List.replicate numImages 0,
       resourcesAllocated := true }, [])
  else
    ({ width := width, height := height, numImages := numImages, index := 0,
       acquiredStatus := List.replicate numImages 0,
       resourcesAllocated := false },
     ["Error: Attempting to create swapchain before initialization!"])

/-- The state transformation performed by `Swapchain::acquireImage`
(arp.cpp lines 222-236) once `acquiredStatus[index]` is 0: set
`acquiredStatus[i] = 1` for `i = index`, advance `index` modulo `numImages`,
return `i`. -/
def Swapchain.acquireResult (s : Swapchain) : ℕ × Swapchain :=
  (s.index,
   { s with acquiredStatus := setNth s.acquiredStatus s.index 1,
            index := (s.index + 1) % s.numImages })

/-- `Swapchain::acquireImage` (arp.cpp lines 222-236).  The call blocks on the
condition variable while `acquiredStatus[index]` is non-zero; `none` models
"the call does not return in this state". -/
def Swapchain.acquireImage (s : Swapchain) : Option (ℕ × Swapchain) :=
  if nth 0 s.acquiredStatus s.index ≠ 0 then
    none
  else
    some s.acquireResult

/-- `Swapchain::releaseImage` (arp.cpp lines 254-258): under the mutex, set
`acquiredStatus[i] = 0` and notify the condition variable. -/
def Swapchain.releaseImage (s : Swapchain) (i : ℕ) : Swapchain :=
  { s with acquiredStatus := setNth s.acquiredStatus i 0 }

/-- `Swapchain::resize` (arp.cpp lines 242-252): under the mutex, store the new
dimensions and re-allocate GL texture storage (not modelled beyond the
dimensions). -/
def Swapchain.resize (s : Swapchain) (w h : ℤ) : Swapchain :=
  { s with width := w, height := h }

/-- Number of images of a swapchain whose `acquiredStatus` entry is 1. -/
def Swapchain.countAcquired (s : Swapchain) : ℕ :=
  s.acquiredStatus.count 1

/-! ## Single-swapchain step relation (claims C2, C3)

The steps a swapchain object can undergo: a (completed) `acquireImage` call by
the application thread, and a `releaseImage` call (issued from `submitFrame`).
-/

/-- One step of a swapchain: an `acquireImage` that completed, or a
`releaseImage i`. -/
inductive SwapStep : Swapchain → Swapchain → Prop
  | acquire (s : Swapchain) (i : ℕ) (s' : Swapchain)
      (h : s.acquireImage = some (i, s')) : SwapStep s s'
  | release (s : Swapchain) (i : ℕ) : SwapStep s (s.releaseImage i)

/-- Reachability by any finite sequence of swapchain steps. -/
abbrev SwapReachable : Swapchain → Swapchain → Prop :=
  Relation.ReflTransGen SwapStep

/-- Inversion of a completed `acquireImage` call. -/
theorem acquireImage_eq_some {s s' : Swapchain} {i : ℕ}
    (h : s.acquireImage = some (i, s')) :
    nth 0 s.acquiredStatus s.index = 0 ∧ i = s.index ∧ s' = s.acquireResult.2 := by
  unfold Swapchain.acquireImage at h
  split at h
  · exact absurd h (by simp)
  · rename_i hc
    have h2 := Option.some.inj h
    have hi : i = s.index := by
      have := congrArg Prod.fst h2
      simpa [Swapchain.acquireResult] using this.symm
    have hs : s' = s.acquireResult.2 := (congrArg Prod.snd h2).symm
    exact ⟨not_not.mp hc, hi, hs⟩

/-- A swapchain step never changes the length of `acquiredStatus`. -/
theorem SwapStep.length_eq {s s' : Swapchain} (h : SwapStep s s') :
    s'.acquiredStatus.length = s.acquiredStatus.length := by
  cases h with
  | acquire i s' hacq =>
    obtain ⟨-, -, rfl⟩ := acquireImage_eq_some hacq
    simp [Swapchain.acquireResult, length_setNth]
  | release i =>
    simp [Swapchain.releaseImage, length_setNth]

/-- A fresh two-image swapchain, created after initialisation. -/
def swDemo0 : Swapchain := (mkSwapchain true 64 64 2).1

/-- `swDemo0` after one `acquireImage` (returned slot 0). -/
def swDemo1 : Swapchain := ⟨64, 64, 2, 1, [1, 0], true⟩

/-- `swDemo1` after a second `acquireImage` (returned slot 1): both images are
simultaneously acquired. -/
def swDemo2 : Swapchain := ⟨64, 64, 2, 0, [1, 1], true⟩

/-- `swDemo2` after `releaseImage 0` followed by a third `acquireImage`. -/
def swDemo3 : Swapchain := ⟨64, 64, 2, 1, [1, 1], true⟩

/-- Claim C3: `acquireImage` returns only when `acquiredStatus[index] = 0`
(otherwise it blocks); on return it has set `acquiredStatus` at the returned
slot to 1, returned the pre-call value of `index`, and advanced `index` to
`(index+1) mod numImages`; `index` changes only on a successful acquire
(`releaseImage` and `resize` leave it unchanged).  With `numImages = 2`, two
outstanding acquires and no submit, a third `acquireImage` does not return
until some image is released. -/
theorem acquireImage_spec :
    (∀ (s : Swapchain) (i : ℕ) (s' : Swapchain),
        s.acquireImage = some (i, s') →
        nth 0 s.acquiredStatus s.index = 0 ∧
        i = s.index ∧
        s'.acquiredStatus = setNth s.acquiredStatus s.index 1 ∧
        (s.index < s.acquiredStatus.length → nth 0 s'.acquiredStatus i = 1) ∧
        s'.index = (s.index + 1) % s.numImages) ∧
    (∀ s : Swapchain, nth 0 s.acquiredStatus s.index ≠ 0 →
        s.acquireImage = none) ∧
    (∀ (s : Swapchain) (i : ℕ) (w h : ℤ),
        (s.releaseImage i).index = s.index ∧ (s.resize w h).index = s.index) ∧
    (swDemo0.acquireImage = some (0, swDemo1) ∧
     swDemo1.acquireImage = some (1, swDemo2) ∧
     swDemo2.acquireImage = none ∧
     (swDemo2.releaseImage 0).acquireImage = some (0, swDemo3)) := by
  refine ⟨?_, ?_, ?_, ?_⟩
  · intro s i s' h
    obtain ⟨h0, rfl, rfl⟩ := acquireImage_eq_some h
    refine ⟨h0, rfl, rfl, ?_, rfl⟩
    intro hlt
    simp [Swapchain.acquireResult, nth_setNth_self, hlt]
  · intro s h
    simp [Swapchain.acquireImage, h]
  · intro s i w h
    exact ⟨rfl, rfl⟩
  · exact ⟨by decide, by decide, by decide, by decide⟩

/-- Witness for `acquireImage_spec` at concrete inputs. -/
theorem acquireImage_spec_witness :
    nth 0 swDemo1.acquiredStatus 0 = 1 ∧ swDemo2.acquireImage = none :=
  ⟨(acquireImage_spec.1 swDemo0 0 swDemo1 (by decide)).2.2.2.1 (by decide),
   acquireImage_spec.2.1 swDemo2 (by decide)⟩

/-- Claim C2 (counterexample): from a fresh two-image swapchain, two
`acquireImage` steps reach a state with both images simultaneously acquired,
so `countAcquired = 2 > numImages - 1 = 1`: the claimed `n - 1` bound fails. -/
theorem acquired_bound_counterexample :
    SwapReachable (mkSwapchain true 64 64 2).1 swDemo2 ∧
    swDemo2.countAcquired = 2 ∧
    ¬ swDemo2.countAcquired ≤ (mkSwapchain true 64 64 2).1.numImages - 1 := by
  refine ⟨?_, by decide, by decide⟩
  have h1 : SwapStep swDemo0 swDemo1 := SwapStep.acquire _ 0 _ (by decide)
  have h2 : SwapStep swDemo1 swDemo2 := SwapStep.acquire _ 1 _ (by decide)
  exact Relation.ReflTransGen.head h1 (Relation.ReflTransGen.single h2)

/-- Claim C2 (amended): for a swapchain with `n` images, every state reachable
by `acquireImage` / `releaseImage` steps has at most `n` images simultaneously
acquired (the `n - 1` bound of the claim does not hold: the application can
acquire all `n` images when the published frame references none of them). -/
theorem acquired_le_numImages (n : ℕ) (w h : ℤ) (s : Swapchain)
    (hr : SwapReachable (mkSwapchain true w h n).1 s) :
    s.countAcquired ≤ n := by
  have hlen : s.acquiredStatus.length = n := by
    induction hr with
    | refl => simp [mkSwapchain]
    | tail _ step ih => rw [step.length_eq, ih]
  calc s.countAcquired ≤ s.acquiredStatus.length := List.count_le_length 1 _
    _ = n := hlen

/-- Witness for `acquired_le_numImages` at a concrete input. -/
theorem acquired_le_numImages_witness : swDemo0.countAcquired ≤ 2 :=
  acquired_le_numImages 2 64 64 swDemo0 Relation.ReflTransGen.refl

/-! ## Library state (file-scope variables of arp.cpp) -/

/-- `arp::FrameLayer` (arp.h lines 108-114).  The `Swapchain*` pointer is
modelled as an index into the list of live swapchains; `flags` is the raw
bitset (`PARALLAX_ENABLED = 1`, `CAMERA_LOCKED = 2`). -/
structure FrameLayer where
  fov : ℚ
  flags : ℕ
  swapchain : ℕ
  swapchainIndex : ℕ
deriving DecidableEq

/-- `FrameLayerFlags::PARALLAX_ENABLED = 1 << 0`. -/
def PARALLAX_ENABLED : ℕ := 1

/-- `FrameLayerFlags::CAMERA_LOCKED = 1 << 1`. -/
def CAMERA_LOCKED : ℕ := 2

/-- `arp::FrameSubmitInfo` (arp.h lines 116-120). -/
structure FrameSubmitInfo where
  pose : Pose
  poseInfo : PoseInfo
  layers : List FrameLayer
deriving DecidableEq

/-- The type of the application-supplied pose function
(`arp::PoseFunction`): `f lastPose dx dy dt keyTime`. -/
def PoseFn : Type :=
  Pose → ℚ → ℚ → ℚ → (Int → ℚ) → Pose

/-- An association-list model of `std::unordered_map<int, double>`, ordered by
insertion (`operator[]` appends missing keys at the end; the traversal order
of the C++ map is unspecified and never observed by the embedded code). -/
abbrev KeyTimes : Type := List (Int × ℚ)

/-- Lookup without insertion (`find`). -/
def lookupKey : KeyTimes → Int → Option ℚ
  | [], _ => none
  | (k', v) :: rest, k => if k' = k then some v else lookupKey rest k

/-- `keyTimes[key] += d`: `operator[]` default-inserts `0.0` for a missing
key, then `+=` adds `d` (arp.cpp line 342). -/
def mapAddAt : KeyTimes → Int → ℚ → KeyTimes
  | [], k, d => [(k, 0 + d)]
  | (k', v) :: rest, k, d =>
    if k' = k then (k', v + d) :: rest else (k', v) :: mapAddAt rest k d

/-- `keyTimeFunction` (arp.cpp lines 675-677): `return keyTimes[key];`.
`operator[]` on `std::unordered_map` default-inserts a zero entry for a
missing key, so the call returns the looked-up value *and* the possibly
extended map. -/
def keyTimeFunction (keyTimes : KeyTimes) (key : Int) : ℚ × KeyTimes :=
  match lookupKey keyTimes key with
  | some v => (v, keyTimes)
  | none => (0, keyTimes ++ [(key, 0)])

/-- The file-scope mutable state of arp.cpp that the embedded operations
touch.  Live swapchain objects are gathered in a list (a `FrameLayer`'s
`swapchain` field indexes it). -/
structure ArpState where
  swapchains : List Swapchain
  frameValid : Bool
  lastFrame : FrameSubmitInfo
  poseHistory : List PoseInfo
  keyTimes : KeyTimes
  pressedKeys : List Int
  cameraPose : Pose
  cameraPoseInfo : PoseInfo
  cursorCaptured : Bool
deriving DecidableEq

/-- A default (zero) swapchain value used as the out-of-range fallback of
`nth`; the embedded code never dereferences it. -/
def emptySwapchain : Swapchain :=
  { width := 0, height := 0, numImages := 0, index := 0,
    acquiredStatus := [], resourcesAllocated := false }

/-- The swapchain a layer's `swapchain` pointer refers to. -/
def swapchainAt (s : ArpState) (i : ℕ) : Swapchain :=
  nth emptySwapchain s.swapchains i

/-- The `acquiredStatus` entry of the image a layer references, read from a
plain swapchain list. -/
def listLayerStatus (scs : List Swapchain) (l : FrameLayer) : ℕ :=
  nth 0 (nth emptySwapchain scs l.swapchain).acquiredStatus l.swapchainIndex

/-- The `acquiredStatus` entry of the image a layer references. -/
def layerStatus (s : ArpState) (l : FrameLayer) : ℕ :=
  listLayerStatus s.swapchains l

/-- `historySize = 10` (arp.cpp line 53). -/
def historySize : ℕ := 10

/-- The `while(poseHistory.size() > historySize) poseHistory.pop_front();`
loop of `submitFrame` (arp.cpp lines 487-489), written as structural
recursion (each iteration pops the front element). -/
def trimHistory : List PoseInfo → List PoseInfo
  | [] => []
  | p :: rest =>
    if historySize < rest.length + 1 then trimHistory rest else p :: rest

/-- `layer.swapchain->releaseImage(layer.swapchainIndex)` for one layer of the
previously published frame (arp.cpp line 492). -/
def releaseLayerImage (scs : List Swapchain) (l : FrameLayer) : List Swapchain :=
  setNth scs l.swapchain ((nth emptySwapchain scs l.swapchain).releaseImage l.swapchainIndex)

/-- The release loop of `submitFrame` (arp.cpp lines 491-493). -/
def releaseFrameLayers (layers : List FrameLayer) (scs : List Swapchain) :
    List Swapchain :=
  layers.foldl releaseLayerImage scs

/-- `submitFrame` up to and including the release loop (arp.cpp lines
482-493): history is pushed and trimmed and every image referenced by the
previously published `lastFrame` is released; `lastFrame` itself has not yet
been replaced. -/
def submitFrameReleased (info : FrameSubmitInfo) (s : ArpState) : ArpState :=
  { s with
    poseHistory := trimHistory (s.poseHistory ++ [info.poseInfo]),
    swapchains := releaseFrameLayers s.lastFrame.layers s.swapchains }

/-- `submitFrame` (arp.cpp lines 482-506): after the release loop, `lastFrame`
is replaced by `submitInfo` under the poses mutex, `keyTimes` is cleared under
the key-times mutex, and `frameValid` becomes true. -/
def submitFrame (info : FrameSubmitInfo) (s : ArpState) : ArpState :=
  { submitFrameReleased info s with
    lastFrame := info,
    keyTimes := [],
    frameValid := true }

/-- The input/pose part of one reprojection-loop iteration (arp.cpp lines
335-363): advance `keyTimes` for every pressed key by the elapsed tick
duration, sample the cursor and the clock into `cameraPoseInfo`, compute the
deltas against the last submitted frame (cursor deltas zeroed when the cursor
is not captured), and recompute `cameraPose` by calling the pose function on
`lastFrame.poseInfo.realPose`.  The `keyTime` callable handed to the pose
function is the value view of `keyTimeFunction`; its default-insertion side
effect (claim C10) only adds zero-valued entries, which are read back
identically to absent ones, so it is dropped here. -/
def reprojectionTick (f : PoseFn) (now mouseX mouseY lastFrameDuration : ℚ)
    (s : ArpState) : ArpState :=
  let keyTimes' :=
    s.pressedKeys.foldl (fun m k => mapAddAt m k lastFrameDuration) s.keyTimes
  let info1 : PoseInfo :=
    { s.cameraPoseInfo with mouseX := mouseX, mouseY := mouseY, time := now }
  let dx0 := info1.mouseX - s.lastFrame.poseInfo.mouseX
  let dy0 := info1.mouseY - s.lastFrame.poseInfo.mouseY
  let dt := info1.time - s.lastFrame.poseInfo.time
  let dx := if s.cursorCaptured then dx0 else 0
  let dy := if s.cursorCaptured then dy0 else 0
  let pose' := f s.lastFrame.poseInfo.realPose dx dy dt
      (fun k => (lookupKey keyTimes' k).getD 0)
  { s with keyTimes := keyTimes',
           cameraPose := pose',
           cameraPoseInfo := { info1 with realPose := pose' } }

/-- `keyCallback` on `GLFW_PRESS` (arp.cpp lines 576-578): insert into the
pressed-key set. -/
def keyCallbackPress (s : ArpState) (k : Int) : ArpState :=
  { s with pressedKeys :=
      if k ∈ s.pressedKeys then s.pressedKeys else k :: s.pressedKeys }

/-- `keyCallback` on `GLFW_RELEASE` (arp.cpp lines 579-581): erase from the
pressed-key set. -/
def keyCallbackRelease (s : ArpState) (k : Int) : ArpState :=
  { s with pressedKeys := s.pressedKeys.filter (fun x => x != k) }

/-- `arp::captureCursor` (arp.cpp lines 278-280). -/
def captureCursor (s : ArpState) : ArpState :=
  { s with cursorCaptured := true }

/-- `arp::releaseCursor` (arp.cpp lines 282-284). -/
def cursorRelease (s : ArpState) : ArpState :=
  { s with cursorCaptured := false }

/-- `arp::getCameraPose` (arp.cpp lines 508-512). -/
def getCameraPose (s : ArpState) : Pose × PoseInfo :=
  (s.cameraPose, s.cameraPoseInfo)

/-- Every state-changing operation of the library other than `submitFrame`,
as the two threads may interleave them: a completed `acquireImage` on a live
swapchain, a reprojection tick, a key press/release callback, a cursor
capture mode change, and a swapchain resize.  `releaseImage` is not a
separate step here: the header marks it internal ("The application should NOT
use this") and the library calls it only from `submitFrame`. -/
inductive NonSubmitStep : ArpState → ArpState → Prop
  | acquire (s : ArpState) (sci : ℕ) (hsci : sci < s.swapchains.length)
      (hen : nth 0 (swapchainAt s sci).acquiredStatus (swapchainAt s sci).index = 0) :
      NonSubmitStep s
        { s with swapchains :=
            setNth s.swapchains sci (swapchainAt s sci).acquireResult.2 }
  | tick (s : ArpState) (f : PoseFn) (now mouseX mouseY dur : ℚ) :
      NonSubmitStep s (reprojectionTick f now mouseX mouseY dur s)
  | keyPress (s : ArpState) (k : Int) : NonSubmitStep s (keyCallbackPress s k)
  | keyRelease (s : ArpState) (k : Int) :
      NonSubmitStep s (keyCallbackRelease s k)
  | capture (s : ArpState) : NonSubmitStep s (captureCursor s)
  | uncapture (s : ArpState) : NonSubmitStep s (cursorRelease s)
  | resize (s : ArpState) (sci : ℕ) (w h : ℤ) :
      NonSubmitStep s
        { s with swapchains :=
            setNth s.swapchains sci ((swapchainAt s sci).resize w h) }

theorem nth_of_length_le {α : Type} (d : α) (l : List α) (i : ℕ)
    (h : l.length ≤ i) : nth d l i = d := by
  induction l generalizing i with
  | nil => rfl
  | cons a t ih =>
    cases i with
    | zero => simp at h
    | succ n => exact ih n (by simpa using h)

/-- Releasing a layer's image zeroes that layer's status entry. -/
theorem listLayerStatus_release_self (scs : List Swapchain) (x : FrameLayer) :
    listLayerStatus (releaseLayerImage scs x) x = 0 := by
  unfold listLayerStatus releaseLayerImage
  rw [nth_setNth_self]
  split
  · simp [Swapchain.releaseImage, nth_setNth_self]
  · simp [emptySwapchain, nth]

/-- Releasing one layer's image never raises any status entry: every entry is
either zeroed or left unchanged. -/
theorem listLayerStatus_release_mono (scs : List Swapchain)
    (x l : FrameLayer) :
    listLayerStatus (releaseLayerImage scs x) l = 0 ∨
    listLayerStatus (releaseLayerImage scs x) l = listLayerStatus scs l := by
  by_cases h1 : l.swapchain = x.swapchain
  · unfold listLayerStatus releaseLayerImage
    rw [h1, nth_setNth_self]
    split
    · rename_i hlt
      by_cases h2 : l.swapchainIndex = x.swapchainIndex
      · left
        simp [Swapchain.releaseImage, h2, nth_setNth_self]
      · right
        simp [Swapchain.releaseImage, nth_setNth_ne _ _ _ _ _ h2]
    · rename_i hge
      right
      rw [nth_of_length_le emptySwapchain scs x.swapchain (by omega)]
  · unfold listLayerStatus releaseLayerImage
    rw [nth_setNth_ne _ _ _ _ _ h1]
    exact Or.inr rfl

/-- A zero status entry stays zero through the whole release loop. -/
theorem listLayerStatus_releaseFrameLayers_zero (ls : List FrameLayer)
    (scs : List Swapchain) (l : FrameLayer)
    (h : listLayerStatus scs l = 0) :
    listLayerStatus (releaseFrameLayers ls scs) l = 0 := by
  induction ls generalizing scs with
  | nil => exact h
  | cons x xs ih =>
    show listLayerStatus (releaseFrameLayers xs (releaseLayerImage scs x)) l = 0
    apply ih
    rcases listLayerStatus_release_mono scs x l with h0 | heq
    · exact h0
    · rw [heq]; exact h

/-- After the release loop of `submitFrame`, every layer of the released list
has a zero status entry. -/
theorem listLayerStatus_releaseFrameLayers_mem (ls : List FrameLayer)
    (scs : List Swapchain) (l : FrameLayer) (hmem : l ∈ ls) :
    listLayerStatus (releaseFrameLayers ls scs) l = 0 := by
  induction ls generalizing scs with
  | nil => cases hmem
  | cons x xs ih =>
    show listLayerStatus (releaseFrameLayers xs (releaseLayerImage scs x)) l = 0
    rcases List.mem_cons.mp hmem with rfl | hmem'
    · exact listLayerStatus_releaseFrameLayers_zero xs _ l
        (listLayerStatus_release_self scs l)
    · exact ih _ hmem'

/-- No non-submit step touches the published frame. -/
theorem nonSubmit_lastFrame_eq {s s' : ArpState} (h : NonSubmitStep s s') :
    s'.lastFrame = s.lastFrame := by
  cases h <;> rfl

/-- No non-submit step releases an acquired image: any status entry equal to 1
is still 1 after the step. -/
theorem nonSubmit_status_preserved {s s' : ArpState} (h : NonSubmitStep s s')
    (l : FrameLayer) (h1 : layerStatus s l = 1) : layerStatus s' l = 1 := by
  cases h with
  | acquire sci hsci hen =>
    by_cases hsc : l.swapchain = sci
    · unfold layerStatus listLayerStatus at h1 ⊢
      simp only at h1 ⊢
      rw [hsc, nth_setNth_self, if_pos hsci]
      rw [hsc] at h1
      by_cases hidx : l.swapchainIndex = (swapchainAt s sci).index
      · exfalso
        rw [hidx] at h1
        rw [show nth 0 (nth emptySwapchain s.swapchains sci).acquiredStatus
              (swapchainAt s sci).index = 0 from hen] at h1
        exact absurd h1 (by decide)
      · simp only [Swapchain.acquireResult]
        rw [nth_setNth_ne _ _ _ _ _ hidx]
        exact h1
    · unfold layerStatus listLayerStatus at h1 ⊢
      simp only at h1 ⊢
      rw [nth_setNth_ne _ _ _ _ _ hsc]
      exact h1
  | tick f now mx my dur => exact h1
  | keyPress k => exact h1
  | keyRelease k => exact h1
  | capture => exact h1
  | uncapture => exact h1
  | resize sci w hh =>
    by_cases hsc : l.swapchain = sci
    · unfold layerStatus listLayerStatus at h1 ⊢
      simp only at h1 ⊢
      rw [hsc, nth_setNth_self]
      rw [hsc] at h1
      split
      · simpa [Swapchain.resize, swapchainAt] using h1
      · rename_i hge
        rw [nth_of_length_le emptySwapchain s.swapchains sci (by omega)] at h1
        exact h1
    · unfold layerStatus listLayerStatus at h1 ⊢
      simp only at h1 ⊢
      rw [nth_setNth_ne _ _ _ _ _ hsc]
      exact h1

/-- Claim C1: for every call to `submitFrame info`, every swapchain image
referenced by the previously published `lastFrame` is released
(`acquiredStatus` set to 0) by the release loop, which runs before `lastFrame`
is replaced by `info` (in the intermediate state the images are released while
`lastFrame` is still the old frame, and the publication step touches no
status); and no image referenced by the currently published `lastFrame` is
released by any other operation: every non-submit step preserves `lastFrame`
and keeps every acquired (`= 1`) status entry of its layers at 1. -/
theorem submitFrame_release_ordering :
    ∀ (s : ArpState) (info : FrameSubmitInfo),
      (∀ l ∈ s.lastFrame.layers,
          layerStatus (submitFrameReleased info s) l = 0) ∧
      (submitFrameReleased info s).lastFrame = s.lastFrame ∧
      (submitFrame info s).lastFrame = info ∧
      (submitFrame info s).swapchains = (submitFrameReleased info s).swapchains ∧
      (∀ s', NonSubmitStep s s' →
          s'.lastFrame = s.lastFrame ∧
          ∀ l ∈ s.lastFrame.layers,
            layerStatus s l = 1 → layerStatus s' l = 1) := by
  intro s info
  refine ⟨?_, rfl, rfl, rfl, ?_⟩
  · intro l hmem
    exact listLayerStatus_releaseFrameLayers_mem _ _ _ hmem
  · intro s' hstep
    exact ⟨nonSubmit_lastFrame_eq hstep,
           fun l _ h1 => nonSubmit_status_preserved hstep l h1⟩

/-- A single published layer reading image 0 of the demo swapchain. -/
def layerDemo : FrameLayer :=
  { fov := 1, flags := 0, swapchain := 0, swapchainIndex := 0 }

/-- A published frame holding `layerDemo`. -/
def frameDemo : FrameSubmitInfo :=
  { pose := zeroPose, poseInfo := zeroPoseInfo, layers := [layerDemo] }

/-- The next frame, rendered into image 1 of the same swapchain. -/
def frameDemo2 : FrameSubmitInfo :=
  { pose := zeroPose, poseInfo := zeroPoseInfo,
    layers := [{ layerDemo with swapchainIndex := 1 }] }

/-- A library state with `frameDemo` published and its image acquired. -/
def stateDemo : ArpState :=
  { swapchains := [swDemo1], frameValid := true, lastFrame := frameDemo,
    poseHistory := [], keyTimes := [], pressedKeys := [],
    cameraPose := zeroPose, cameraPoseInfo := zeroPoseInfo,
    cursorCaptured := false }

/-- Witness for `submitFrame_release_ordering` at concrete inputs. -/
theorem submitFrame_release_ordering_witness :
    layerStatus (submitFrameReleased frameDemo2 stateDemo) layerDemo = 0 ∧
    layerStatus (captureCursor stateDemo) layerDemo = 1 := by
  refine ⟨(submitFrame_release_ordering stateDemo frameDemo2).1 layerDemo
      (by simp [stateDemo, frameDemo]), ?_⟩
  exact ((submitFrame_release_ordering stateDemo frameDemo2).2.2.2.2
      (captureCursor stateDemo) (NonSubmitStep.capture stateDemo)).2 layerDemo
      (by simp [stateDemo, frameDemo]) (by decide)

/-! ## Display-time prediction (claim C4) -/

/-- The interval-accumulation loop of `getPredictedDisplayTime` (arp.cpp
lines 522-532): `lastTime` starts at the sentinel `-1.0`, the first element
only primes it, and each further element contributes its difference from the
previous one. -/
def intervalsTotal : List PoseInfo → ℚ → ℚ → ℚ
  | [], _, total => total
  | p :: rest, lastTime, total =>
    if lastTime = -1 then intervalsTotal rest p.time total
    else intervalsTotal rest p.time (total + (p.time - lastTime))

/-- `getPredictedDisplayTime` (arp.cpp lines 514-534). -/
def getPredictedDisplayTime (s : ArpState) : ℚ :=
  if s.poseHistory.length < 2 then 1 / 60
  else
    s.lastFrame.poseInfo.time +
      intervalsTotal s.poseHistory (-1) 0 / ((s.poseHistory.length : ℚ) - 1)

/-- Successive differences of a list of timestamps: the "intervals" of the
claim, written from the spec's words for comparison with the code's loop. -/
def succDiffs : List ℚ → List ℚ
  | a :: b :: rest => (b - a) :: succDiffs (b :: rest)
  | _ => []

theorem succDiffs_length (l : List ℚ) : (succDiffs l).length = l.length - 1 := by
  induction l with
  | nil => rfl
  | cons a t ih =>
    cases t with
    | nil => rfl
    | cons b r =>
      simp only [succDiffs, List.length_cons] at ih ⊢
      omega

/-- The accumulation loop computes the sum of the successive differences, as
long as no timestamp collides with the `-1.0` sentinel. -/
theorem intervalsTotal_eq (l : List PoseInfo) (t0 acc : ℚ) (h0 : t0 ≠ -1)
    (hl : ∀ p ∈ l, p.time ≠ -1) :
    intervalsTotal l t0 acc =
      acc + (succDiffs (t0 :: l.map PoseInfo.time)).sum := by
  induction l generalizing t0 acc with
  | nil => simp [intervalsTotal, succDiffs]
  | cons p rest ih =>
    simp only [intervalsTotal, List.map_cons]
    rw [if_neg h0]
    rw [ih p.time (acc + (p.time - t0)) (hl p (by simp))
        (fun q hq => hl q (by simp [hq]))]
    simp only [succDiffs, List.sum_cons]
    ring

/-- A library state before any frame has been submitted: the value-initialised
file-scope statics of arp.cpp. -/
def initialState : ArpState :=
  { swapchains := [], frameValid := false,
    lastFrame := { pose := zeroPose, poseInfo := zeroPoseInfo, layers := [] },
    poseHistory := [], keyTimes := [], pressedKeys := [],
    cameraPose := zeroPose, cameraPoseInfo := zeroPoseInfo,
    cursorCaptured := false }

/-- A `PoseInfo` carrying only a timestamp. -/
def mkTimeInfo (t : ℚ) : PoseInfo :=
  { mouseX := 0, mouseY := 0, time := t, realPose := zeroPose }

/-- A layerless frame carrying only a timestamp. -/
def mkTimeFrame (t : ℚ) : FrameSubmitInfo :=
  { pose := zeroPose, poseInfo := mkTimeInfo t, layers := [] }

/-- The state after submitting three frames with timestamps 0, 0.016, 0.032. -/
def stateAfterThree : ArpState :=
  submitFrame (mkTimeFrame (32 / 1000))
    (submitFrame (mkTimeFrame (16 / 1000))
      (submitFrame (mkTimeFrame 0) initialState))

theorem stateAfterThree_history :
    stateAfterThree.poseHistory =
      [mkTimeInfo 0, mkTimeInfo (16 / 1000), mkTimeInfo (32 / 1000)] := by
  norm_num [stateAfterThree, initialState, submitFrame, submitFrameReleased,
    releaseFrameLayers, trimHistory, historySize, mkTimeFrame]

/-- Claim C4: `getPredictedDisplayTime` returns `1/60` when the pose history
holds fewer than 2 samples, and otherwise returns `lastFrame.poseInfo.time`
plus the arithmetic mean of the successive timestamp differences of the
history samples (timestamps are nonnegative clock readings, which in
particular never collide with the loop's `-1.0` sentinel); after submitting
exactly three frames with timestamps 0, 0.016 and 0.032 it returns 0.048
(exactly, hence within `1e-9`). -/
theorem getPredictedDisplayTime_spec :
    (∀ s : ArpState, s.poseHistory.length < 2 →
        getPredictedDisplayTime s = 1 / 60) ∧
    (∀ s : ArpState, 2 ≤ s.poseHistory.length →
        (∀ p ∈ s.poseHistory, 0 ≤ p.time) →
        getPredictedDisplayTime s =
          s.lastFrame.poseInfo.time +
            (succDiffs (s.poseHistory.map PoseInfo.time)).sum /
              ((succDiffs (s.poseHistory.map PoseInfo.time)).length : ℚ)) ∧
    getPredictedDisplayTime stateAfterThree = 48 / 1000 := by
  refine ⟨?_, ?_, ?_⟩
  · intro s h
    unfold getPredictedDisplayTime
    rw [if_pos h]
  · intro s h2 hpos
    unfold getPredictedDisplayTime
    rw [if_neg (by omega)]
    obtain ⟨p, rest, hcons⟩ : ∃ p rest, s.poseHistory = p :: rest := by
      cases hh : s.poseHistory with
      | nil => rw [hh] at h2; simp at h2
      | cons a t => exact ⟨a, t, rfl⟩
    rw [hcons] at hpos ⊢
    have hne : ∀ q ∈ p :: rest, q.time ≠ -1 := by
      intro q hq heq
      have := hpos q hq
      rw [heq] at this
      linarith
    rw [show intervalsTotal (p :: rest) (-1) 0 = intervalsTotal rest p.time 0
        from by simp [intervalsTotal]]
    rw [intervalsTotal_eq rest p.time 0 (hne p (by simp))
        (fun q hq => hne q (by simp [hq]))]
    have hmap : p.time :: rest.map PoseInfo.time =
        (p :: rest).map PoseInfo.time := by simp
    rw [hmap]
    have hlen : ((succDiffs ((p :: rest).map PoseInfo.time)).length : ℚ) =
        ((p :: rest).length : ℚ) - 1 := by
      rw [succDiffs_length]
      simp only [List.length_map, List.length_cons]
      push_cast [Nat.add_sub_cancel]
      ring
    rw [hlen]
    ring
  · have hlast : stateAfterThree.lastFrame = mkTimeFrame (32 / 1000) := rfl
    unfold getPredictedDisplayTime
    rw [stateAfterThree_history, hlast]
    norm_num [intervalsTotal, mkTimeInfo, mkTimeFrame]

/-- Witness for `getPredictedDisplayTime_spec` at concrete inputs. -/
theorem getPredictedDisplayTime_spec_witness :
    getPredictedDisplayTime initialState = 1 / 60 ∧
    getPredictedDisplayTime stateAfterThree =
      stateAfterThree.lastFrame.poseInfo.time +
        (succDiffs (stateAfterThree.poseHistory.map PoseInfo.time)).sum /
          ((succDiffs (stateAfterThree.poseHistory.map PoseInfo.time)).length : ℚ) :=
  ⟨getPredictedDisplayTime_spec.1 initialState (by simp [initialState]),
   getPredictedDisplayTime_spec.2.1 stateAfterThree
     (by rw [stateAfterThree_history]; simp)
     (by rw [stateAfterThree_history]; norm_num [mkTimeInfo])⟩

/-! ## Pose prediction (claims C5, C9) -/

/-- The arguments with which `getPredictedCameraPose` invokes the registered
pose function (base pose, halved deltas, and the predicted key-time
callable). -/
structure PredictionCall where
  basePose : Pose
  dx : ℚ
  dy : ℚ
  dt : ℚ
  keyTime : Int → ℚ

/-- `getPredictedCameraPose` (arp.cpp lines 538-560).  `time` is the target
time argument, `now` the value of `glfwGetTime()` inside the call.  The
function copies `cameraPoseInfo` into the output parameter, halves the time
and mouse deltas, stores the predicted `dt` in the `predictionMutex`-guarded
global, and calls the pose function on the live `cameraPose` with a closure
returning the predicted `dt` for pressed keys and 0 otherwise.  The returned
triple is (pose output, poseInfo output, recorded pose-function call). -/
def getPredictedCameraPose (f : PoseFn) (s : ArpState) (time now : ℚ) :
    Pose × PoseInfo × PredictionCall :=
  let poseInfo := s.cameraPoseInfo
  let dt := (time - now) * (1 / 2)
  let dx := (s.cameraPoseInfo.mouseX - s.lastFrame.poseInfo.mouseX) * (1 / 2)
  let dy := (s.cameraPoseInfo.mouseY - s.lastFrame.poseInfo.mouseY) * (1 / 2)
  let predictedDt := dt
  let keyTime : Int → ℚ :=
    fun key => if key ∈ s.pressedKeys then predictedDt else 0
  (f s.cameraPose dx dy dt keyTime, poseInfo,
   ⟨s.cameraPose, dx, dy, dt, keyTime⟩)

/-- Claim C5: `getPredictedCameraPose` invokes the registered pose function
with `dt = 0.5 * (time - now)`, `dx = 0.5 * (cameraPoseInfo.mouseX -
lastFrame.poseInfo.mouseX)`, `dy = 0.5 * (cameraPoseInfo.mouseY -
lastFrame.poseInfo.mouseY)`, and a `keyTime` callable that returns that same
predicted `dt` for every key in `pressedKeys` and 0 for every other key. -/
theorem getPredictedCameraPose_args :
    ∀ (f : PoseFn) (s : ArpState) (time now : ℚ),
      ((getPredictedCameraPose f s time now).2.2.dt =
          (1 / 2) * (time - now)) ∧
      ((getPredictedCameraPose f s time now).2.2.dx =
          (1 / 2) * (s.cameraPoseInfo.mouseX - s.lastFrame.poseInfo.mouseX)) ∧
      ((getPredictedCameraPose f s time now).2.2.dy =
          (1 / 2) * (s.cameraPoseInfo.mouseY - s.lastFrame.poseInfo.mouseY)) ∧
      (∀ k : Int, k ∈ s.pressedKeys →
          (getPredictedCameraPose f s time now).2.2.keyTime k =
            (getPredictedCameraPose f s time now).2.2.dt) ∧
      (∀ k : Int, k ∉ s.pressedKeys →
          (getPredictedCameraPose f s time now).2.2.keyTime k = 0) ∧
      ((getPredictedCameraPose f s time now).1 =
          f (getPredictedCameraPose f s time now).2.2.basePose
            (getPredictedCameraPose f s time now).2.2.dx
            (getPredictedCameraPose f s time now).2.2.dy
            (getPredictedCameraPose f s time now).2.2.dt
            (getPredictedCameraPose f s time now).2.2.keyTime) := by
  intro f s time now
  refine ⟨by simp only [getPredictedCameraPose]; ring,
    by simp only [getPredictedCameraPose]; ring,
    by simp only [getPredictedCameraPose]; ring, ?_, ?_, rfl⟩
  · intro k hk
    simp [getPredictedCameraPose, hk]
  · intro k hk
    simp [getPredictedCameraPose, hk]

/-- A pose function used for concrete witnesses: it offsets the base position
by the deltas it receives. -/
def demoPoseFn : PoseFn :=
  fun p dx dy dt kt =>
    { p with position :=
        ⟨p.position.x + dx, p.position.y + dy, p.position.z + dt + kt 32⟩ }

/-- A state with one pressed key and distinct live / submitted cursor data. -/
def statePred : ArpState :=
  { initialState with
    pressedKeys := [32],
    cameraPose := { position := ⟨1, 2, 3⟩, orientation := identityQuat },
    cameraPoseInfo :=
      { mouseX := 10, mouseY := 20, time := 5,
        realPose := { position := ⟨1, 2, 3⟩, orientation := identityQuat } } }

/-- Witness for `getPredictedCameraPose_args` at concrete inputs. -/
theorem getPredictedCameraPose_args_witness :
    (getPredictedCameraPose demoPoseFn statePred 7 5).2.2.keyTime 32 =
      (getPredictedCameraPose demoPoseFn statePred 7 5).2.2.dt ∧
    (getPredictedCameraPose demoPoseFn statePred 7 5).2.2.keyTime 33 = 0 :=
  ⟨(getPredictedCameraPose_args demoPoseFn statePred 7 5).2.2.2.1 32
      (by simp [statePred]),
   (getPredictedCameraPose_args demoPoseFn statePred 7 5).2.2.2.2.1 33
      (by simp [statePred])⟩

/-- Claim C9: the base-pose argument `getPredictedCameraPose` passes to the
pose function is the live `cameraPose` (not `lastFrame.poseInfo.realPose`),
and the `poseInfo` output parameter is the live `cameraPoseInfo`, whose
`realPose` field is left as the live pose: it does not depend on the pose
function, so it never holds the predicted pose that is returned. -/
theorem getPredictedCameraPose_outputs :
    ∀ (f : PoseFn) (s : ArpState) (time now : ℚ),
      ((getPredictedCameraPose f s time now).2.2.basePose = s.cameraPose) ∧
      ((getPredictedCameraPose f s time now).2.1 = s.cameraPoseInfo) ∧
      ((getPredictedCameraPose f s time now).2.1.realPose =
          s.cameraPoseInfo.realPose) ∧
      (∀ g : PoseFn,
          (getPredictedCameraPose f s time now).2.1 =
            (getPredictedCameraPose g s time now).2.1) ∧
      (s.cameraPoseInfo.realPose = s.cameraPose →
          (getPredictedCameraPose f s time now).2.1.realPose = s.cameraPose) := by
  intro f s time now
  exact ⟨rfl, rfl, rfl, fun g => rfl, fun h => h⟩

/-- Witness for `getPredictedCameraPose_outputs` at concrete inputs. -/
theorem getPredictedCameraPose_outputs_witness :
    (getPredictedCameraPose demoPoseFn statePred 7 5).2.1.realPose =
      statePred.cameraPose :=
  (getPredictedCameraPose_outputs demoPoseFn statePred 7 5).2.2.2.2 rfl

/-! ## keyTimeFunction mutation (claim C10) -/

/-- Claim C10: calling `keyTimeFunction` with a key that has no entry in
`keyTimes` returns 0 but also default-inserts the key with value 0.0
(`operator[]` of `std::unordered_map`): the map after the query differs from
the map before and now maps the key to 0. -/
theorem keyTimeFunction_inserts :
    ∀ (m : KeyTimes) (k : Int), lookupKey m k = none →
      keyTimeFunction m k = (0, m ++ [(k, 0)]) ∧
      lookupKey (keyTimeFunction m k).2 k = some 0 ∧
      (keyTimeFunction m k).2 ≠ m := by
  intro m k h
  have heq : keyTimeFunction m k = (0, m ++ [(k, 0)]) := by
    unfold keyTimeFunction
    rw [h]
  refine ⟨heq, ?_, ?_⟩
  · rw [heq]
    have key : ∀ m' : KeyTimes, lookupKey m' k = none →
        lookupKey (m' ++ [(k, 0)]) k = some 0 := by
      intro m'
      induction m' with
      | nil => intro _; simp [lookupKey]
      | cons a t ih =>
        intro ha
        obtain ⟨k', v⟩ := a
        rw [List.cons_append]
        simp only [lookupKey] at ha ⊢
        by_cases hk : k' = k
        · rw [if_pos hk] at ha; cases ha
        · rw [if_neg hk] at ha ⊢
          exact ih ha
    exact key m h
  · rw [heq]
    intro hcontr
    have := congrArg List.length hcontr
    simp at this

/-- Witness for `keyTimeFunction_inserts` at concrete inputs. -/
theorem keyTimeFunction_inserts_witness :
    keyTimeFunction [(10, 3)] 32 = (0, [(10, 3), (32, 0)]) :=
  (keyTimeFunction_inserts [(10, 3)] 32 (by simp [lookupKey])).1

/-! ## Error handling (claim C8) -/

/-- `arp::initialize` (arp.cpp lines 260-272), named `libInit` here.
`hasContext` models `glfwGetCurrentContext() != nullptr` and `glewOk` models
`glewInit() == GLEW_OK`.  The result is the returned status, the diagnostics
printed to `std::cout`, and the resulting value of the file-scope
`initialized` flag (false before the call). -/
def libInit (hasContext glewOk : Bool) : Int × List String × Bool :=
  if !hasContext then
    (-1, ["Error: cannot initialize ARP with no valid OpenGL context"], false)
  else if !glewOk then
    (-1, ["Error initializing GLEW"], false)
  else
    (0, [], true)

/-- The precondition check of `arp::startReprojection` (arp.cpp lines
295-299): with no registered pose function it logs and returns -1;
otherwise (`none`) the guard passes and the reprojection loop is entered. -/
def startReprojectionCheck (poseFunctionRegistered : Bool) :
    Option (Int × List String) :=
  if !poseFunctionRegistered then
    some (-1, ["Error: No pose function provided! Not starting reprojection."])
  else
    none

/-- Claim C8: `initialize` returns a non-zero status and logs a diagnostic
when there is no current GL context (leaving the library uninitialised);
`startReprojection` returns a non-zero status and logs a diagnostic when no
pose function has been registered; constructing a `Swapchain` before
`initialize` logs a diagnostic and yields an unusable swapchain (its GL
resources are never allocated).  All three paths return normally — the
embedded operations are total functions, so no exception crosses the API. -/
theorem precondition_violations_spec :
    (∀ glewOk : Bool,
        (libInit false glewOk).1 ≠ 0 ∧
        (libInit false glewOk).2.1 ≠ [] ∧
        (libInit false glewOk).2.2 = false) ∧
    (startReprojectionCheck false =
        some (-1,
          ["Error: No pose function provided! Not starting reprojection."]) ∧
      ∀ st logs, startReprojectionCheck false = some (st, logs) →
        st ≠ 0 ∧ logs ≠ []) ∧
    (∀ (w h : ℤ) (n : ℕ),
        (mkSwapchain false w h n).2 ≠ [] ∧
        (mkSwapchain false w h n).1.resourcesAllocated = false) := by
  refine ⟨?_, ⟨rfl, ?_⟩, ?_⟩
  · intro glewOk
    exact ⟨by norm_num [libInit], by simp [libInit], rfl⟩
  · intro st logs h
    have h' := Option.some.inj h
    have hst : st = -1 := (Prod.ext_iff.mp h').1.symm
    have hlogs : logs =
        ["Error: No pose function provided! Not starting reprojection."] :=
      (Prod.ext_iff.mp h').2.symm
    subst hst hlogs
    exact ⟨by decide, by simp⟩
  · intro w h n
    exact ⟨by simp [mkSwapchain], rfl⟩

/-- Witness for `precondition_violations_spec` at concrete inputs. -/
theorem precondition_violations_spec_witness :
    (-1 : Int) ≠ 0 ∧
    (["Error: No pose function provided! Not starting reprojection."] :
      List String) ≠ [] :=
  precondition_violations_spec.2.1.2 (-1)
    ["Error: No pose function provided! Not starting reprojection."] rfl

/-! ## Layer rendering (claims C6, C7)

`glm::mat4` over `ℚ`, in the mathematical row/column convention (glm stores
columns, but `glm::translate`, `glm::scale`, `mat4(quat)` and `operator*`
below are written out as the linear maps they denote on column vectors). -/

/-- A 4×4 rational matrix; `mRC` is the entry in row R, column C. -/
structure Mat4 where
  m00 : ℚ
  m01 : ℚ
  m02 : ℚ
  m03 : ℚ
  m10 : ℚ
  m11 : ℚ
  m12 : ℚ
  m13 : ℚ
  m20 : ℚ
  m21 : ℚ
  m22 : ℚ
  m23 : ℚ
  m30 : ℚ
  m31 : ℚ
  m32 : ℚ
  m33 : ℚ
deriving DecidableEq

/-- Matrix product (`glm::mat4 operator*`). -/
def Mat4.mul (a b : Mat4) : Mat4 where
  m00 := a.m00 * b.m00 + a.m01 * b.m10 + a.m02 * b.m20 + a.m03 * b.m30
  m01 := a.m00 * b.m01 + a.m01 * b.m11 + a.m02 * b.m21 + a.m03 * b.m31
  m02 := a.m00 * b.m02 + a.m01 * b.m12 + a.m02 * b.m22 + a.m03 * b.m32
  m03 := a.m00 * b.m03 + a.m01 * b.m13 + a.m02 * b.m23 + a.m03 * b.m33
  m10 := a.m10 * b.m00 + a.m11 * b.m10 + a.m12 * b.m20 + a.m13 * b.m30
  m11 := a.m10 * b.m01 + a.m11 * b.m11 + a.m12 * b.m21 + a.m13 * b.m31
  m12 := a.m10 * b.m02 + a.m11 * b.m12 + a.m12 * b.m22 + a.m13 * b.m32
  m13 := a.m10 * b.m03 + a.m11 * b.m13 + a.m12 * b.m23 + a.m13 * b.m33
  m20 := a.m20 * b.m00 + a.m21 * b.m10 + a.m22 * b.m20 + a.m23 * b.m30
  m21 := a.m20 * b.m01 + a.m21 * b.m11 + a.m22 * b.m21 + a.m23 * b.m31
  m22 := a.m20 * b.m02 + a.m21 * b.m12 + a.m22 * b.m22 + a.m23 * b.m32
  m23 := a.m20 * b.m03 + a.m21 * b.m13 + a.m22 * b.m23 + a.m23 * b.m33
  m30 := a.m30 * b.m00 + a.m31 * b.m10 + a.m32 * b.m20 + a.m33 * b.m30
  m31 := a.m30 * b.m01 + a.m31 * b.m11 + a.m32 * b.m21 + a.m33 * b.m31
  m32 := a.m30 * b.m02 + a.m31 * b.m12 + a.m32 * b.m22 + a.m33 * b.m32
  m33 := a.m30 * b.m03 + a.m31 * b.m13 + a.m32 * b.m23 + a.m33 * b.m33

instance : Mul Mat4 := ⟨Mat4.mul⟩

theorem mat4_mul_def (a b : Mat4) : a * b = a.mul b := rfl

/-- `glm::translate(mat4(1), v)`. -/
def translateM (v : Vec3) : Mat4 :=
  ⟨1, 0, 0, v.x,
   0, 1, 0, v.y,
   0, 0, 1, v.z,
   0, 0, 0, 1⟩

/-- `glm::scale(mat4(1), v)`. -/
def scaleM (v : Vec3) : Mat4 :=
  ⟨v.x, 0, 0, 0,
   0, v.y, 0, 0,
   0, 0, v.z, 0,
   0, 0, 0, 1⟩

/-- `glm::mat4(q)` for a quaternion `q` (glm's `mat4_cast`), as the rotation
matrix it denotes on column vectors. -/
def quatMat4 (q : Quat) : Mat4 :=
  ⟨1 - 2 * (q.y ^ 2 + q.z ^ 2), 2 * (q.x * q.y - q.w * q.z),
     2 * (q.x * q.z + q.w * q.y), 0,
   2 * (q.x * q.y + q.w * q.z), 1 - 2 * (q.x ^ 2 + q.z ^ 2),
     2 * (q.y * q.z - q.w * q.x), 0,
   2 * (q.x * q.z - q.w * q.y), 2 * (q.y * q.z + q.w * q.x),
     1 - 2 * (q.x ^ 2 + q.y ^ 2), 0,
   0, 0, 0, 1⟩

/-- The identity pose set up by `startReprojection` (arp.cpp lines 304-305). -/
def identityPose : Pose := ⟨zeroVec3, identityQuat⟩

/-- `yScale = projectionFar * tanf(fovY / 2.f)` of `drawLayer` (arp.cpp line
393).  The C math library's tangent is an external collaborator, so it is
passed as a parameter `tan`. -/
def drawLayerYScale (tan : ℚ → ℚ) (projectionFar fovY : ℚ) : ℚ :=
  projectionFar * tan (fovY / 2)

/-- `xScale = projectionAspect * yScale` of `drawLayer` (arp.cpp line 394). -/
def drawLayerXScale (tan : ℚ → ℚ) (projectionFar projectionAspect fovY : ℚ) :
    ℚ :=
  projectionAspect * drawLayerYScale tan projectionFar fovY

/-- The model matrix built by the default path of `drawLayer` (arp.cpp lines
391-407): `model = translation * rotation * farPlaneOffset * scale`, where
`rotation` is the submitted frame's orientation unless the layer is
CAMERA_LOCKED, in which case it is the live camera's. -/
def drawLayerModel (tan : ℚ → ℚ) (projectionFar projectionAspect : ℚ)
    (framePose cameraPose : Pose) (layer : FrameLayer) : Mat4 :=
  let fovY := layer.fov
  let yScale := projectionFar * tan (fovY / 2)
  let xScale := projectionAspect * yScale
  let scale := scaleM ⟨xScale, yScale, 1⟩
  let farPlaneOffset := translateM ⟨0, 0, -projectionFar⟩
  let translation := translateM framePose.position
  let rotation :=
    if layer.flags &&& CAMERA_LOCKED = 0 then quatMat4 framePose.orientation
    else quatMat4 cameraPose.orientation
  translation * rotation * farPlaneOffset * scale

/-- The horizontal half-extent as the claim words it,
`xs = F * tan((aspect * Fy) / 2)`, written from the spec's words for
comparison with `drawLayerXScale`. -/
def claimXs (tan : ℚ → ℚ) (projectionFar projectionAspect fovY : ℚ) : ℚ :=
  projectionFar * tan ((projectionAspect * fovY) / 2)

/-- The default-layer model matrix as the claim words it, written from the
spec's words for comparison with `drawLayerModel`. -/
def claimModel (tan : ℚ → ℚ) (projectionFar projectionAspect : ℚ)
    (framePose : Pose) (layer : FrameLayer) : Mat4 :=
  translateM framePose.position * quatMat4 framePose.orientation *
    translateM ⟨0, 0, -projectionFar⟩ *
    scaleM ⟨claimXs tan projectionFar projectionAspect layer.fov,
            projectionFar * tan (layer.fov / 2), 1⟩

/-- Rational samples of the tangent at the two arguments the counterexample
uses: `tan 0.5 ≈ 0.5463`, `tan 1 ≈ 1.5574`.  Any tangent-like values with
`2 * tan(1/2) ≠ tan 1` exhibit the same discrepancy. -/
def tanSamples : ℚ → ℚ :=
  fun x => if x = 1 / 2 then 5463 / 10000 else if x = 1 then 15574 / 10000 else 0

/-- Claim C6 (counterexample): for a default layer with `fov = 1`,
`projectionFar = 1` and `aspect = 2`, the code computes the horizontal
half-extent `aspect * F * tan(Fy/2) = 2 * tan(1/2) ≈ 1.0926`, while the claim
asserts `F * tan((aspect*Fy)/2) = tan 1 ≈ 1.5574`; the two differ (tangent
sampled at rational approximations), and consequently so do the model
matrices, already in their top-left entry. -/
theorem drawLayer_halfext_counterexample :
    drawLayerXScale tanSamples 1 2 1 ≠ claimXs tanSamples 1 2 1 ∧
    drawLayerModel tanSamples 1 2 identityPose identityPose layerDemo ≠
      claimModel tanSamples 1 2 identityPose layerDemo := by
  constructor
  · norm_num [drawLayerXScale, drawLayerYScale, claimXs, tanSamples]
  · intro h
    have h00 := congrArg Mat4.m00 h
    norm_num [drawLayerModel, claimModel, claimXs, translateM, scaleM,
      quatMat4, identityPose, zeroVec3, identityQuat, layerDemo, tanSamples,
      CAMERA_LOCKED, mat4_mul_def, Mat4.mul] at h00

/-- Claim C6 (amended): for every default (not CAMERA_LOCKED) layer, the
quad's half-extents are `xs = aspect * F * tan(Fy/2)` (the aspect ratio
multiplies the tangent, not the angle) and `ys = F * tan(Fy/2)`, and the model
matrix equals `translate(framePose.position) * rotation(framePose.orientation)
* translate(0,0,-F) * scale(xs, ys, 1)`. -/
theorem drawLayerModel_spec :
    ∀ (tan : ℚ → ℚ) (F aspect : ℚ) (framePose cameraPose : Pose)
      (layer : FrameLayer), layer.flags &&& CAMERA_LOCKED = 0 →
      drawLayerXScale tan F aspect layer.fov =
        aspect * (F * tan (layer.fov / 2)) ∧
      drawLayerYScale tan F layer.fov = F * tan (layer.fov / 2) ∧
      drawLayerModel tan F aspect framePose cameraPose layer =
        translateM framePose.position * quatMat4 framePose.orientation *
          translateM ⟨0, 0, -F⟩ *
          scaleM ⟨drawLayerXScale tan F aspect layer.fov,
                  drawLayerYScale tan F layer.fov, 1⟩ := by
  intro tan F aspect fp cp layer hflag
  refine ⟨rfl, rfl, ?_⟩
  simp only [drawLayerModel, drawLayerXScale, drawLayerYScale]
  rw [if_pos hflag]

/-- Witness for `drawLayerModel_spec` at concrete inputs. -/
theorem drawLayerModel_spec_witness :
    drawLayerModel tanSamples 1 2 identityPose identityPose layerDemo =
      translateM identityPose.position * quatMat4 identityPose.orientation *
        translateM ⟨0, 0, -1⟩ *
        scaleM ⟨drawLayerXScale tanSamples 1 2 layerDemo.fov,
                drawLayerYScale tanSamples 1 layerDemo.fov, 1⟩ :=
  (drawLayerModel_spec tanSamples 1 2 identityPose identityPose layerDemo
    (by decide)).2.2

/-- Which path `drawLayer` takes, and with which quad rotation when it is the
default path. -/
inductive LayerDrawPath where
  | parallax : LayerDrawPath
  | defaultPath (rotation : Mat4) : LayerDrawPath

/-- The path selection of `drawLayer` (arp.cpp lines 385-405): the parallax
path is taken exactly when the layer has PARALLAX_ENABLED, does not have
CAMERA_LOCKED, and the submitted position differs (exact inequality) from the
live camera position; otherwise the default path runs, whose rotation is the
submitted orientation unless CAMERA_LOCKED, in which case the live one. -/
def drawLayerPath (framePose cameraPose : Pose) (layer : FrameLayer) :
    LayerDrawPath :=
  if layer.flags &&& PARALLAX_ENABLED ≠ 0 ∧
      layer.flags &&& CAMERA_LOCKED = 0 ∧
      framePose.position ≠ cameraPose.position then
    LayerDrawPath.parallax
  else
    LayerDrawPath.defaultPath
      (if layer.flags &&& CAMERA_LOCKED = 0 then quatMat4 framePose.orientation
       else quatMat4 cameraPose.orientation)

/-- Claim C7: `drawLayer` takes the parallax path exactly when the layer has
PARALLAX_ENABLED, lacks CAMERA_LOCKED, and the live position differs from the
submitted one; every other layer — including a PARALLAX_ENABLED layer whose
live and submitted positions coincide — takes the default path, whose quad
rotation is the live orientation when CAMERA_LOCKED is set and the submitted
orientation otherwise. -/
theorem drawLayer_dispatch_spec :
    ∀ (framePose cameraPose : Pose) (layer : FrameLayer),
      (drawLayerPath framePose cameraPose layer = LayerDrawPath.parallax ↔
        (layer.flags &&& PARALLAX_ENABLED ≠ 0 ∧
         layer.flags &&& CAMERA_LOCKED = 0 ∧
         framePose.position ≠ cameraPose.position)) ∧
      (layer.flags &&& PARALLAX_ENABLED ≠ 0 →
        framePose.position = cameraPose.position →
        drawLayerPath framePose cameraPose layer =
          LayerDrawPath.defaultPath
            (if layer.flags &&& CAMERA_LOCKED = 0
             then quatMat4 framePose.orientation
             else quatMat4 cameraPose.orientation)) ∧
      (layer.flags &&& CAMERA_LOCKED ≠ 0 →
        drawLayerPath framePose cameraPose layer =
          LayerDrawPath.defaultPath (quatMat4 cameraPose.orientation)) ∧
      (drawLayerPath framePose cameraPose layer ≠ LayerDrawPath.parallax →
        drawLayerPath framePose cameraPose layer =
          LayerDrawPath.defaultPath
            (if layer.flags &&& CAMERA_LOCKED = 0
             then quatMat4 framePose.orientation
             else quatMat4 cameraPose.orientation)) := by
  intro fp cp layer
  by_cases hc : layer.flags &&& PARALLAX_ENABLED ≠ 0 ∧
      layer.flags &&& CAMERA_LOCKED = 0 ∧ fp.position ≠ cp.position
  · have hpath : drawLayerPath fp cp layer = LayerDrawPath.parallax := by
      unfold drawLayerPath
      rw [if_pos hc]
    exact ⟨⟨fun _ => hc, fun _ => hpath⟩, fun _ h2 => absurd h2 hc.2.2,
      fun h3 => absurd hc.2.1 h3, fun hnp => absurd hpath hnp⟩
  · have hpath : drawLayerPath fp cp layer =
        LayerDrawPath.defaultPath
          (if layer.flags &&& CAMERA_LOCKED = 0
           then quatMat4 fp.orientation else quatMat4 cp.orientation) := by
      unfold drawLayerPath
      rw [if_neg hc]
    refine ⟨⟨?_, fun hcc => absurd hcc hc⟩, fun _ _ => hpath, ?_,
      fun _ => hpath⟩
    · intro hp
      exact absurd (hpath.symm.trans hp) (by simp)
    · intro h3
      rw [hpath, if_neg h3]

/-- A PARALLAX_ENABLED layer. -/
def layerParallax : FrameLayer :=
  { fov := 1, flags := 1, swapchain := 0, swapchainIndex := 0 }

/-- A CAMERA_LOCKED layer. -/
def layerLocked : FrameLayer :=
  { fov := 1, flags := 2, swapchain := 0, swapchainIndex := 0 }

/-- A live pose translated away from the origin. -/
def poseA : Pose := ⟨⟨1, 0, 0⟩, identityQuat⟩

/-- Witness for `drawLayer_dispatch_spec` at concrete inputs. -/
theorem drawLayer_dispatch_spec_witness :
    drawLayerPath identityPose poseA layerParallax =
      LayerDrawPath.parallax ∧
    drawLayerPath identityPose identityPose layerParallax =
      LayerDrawPath.defaultPath (quatMat4 identityPose.orientation) ∧
    drawLayerPath identityPose poseA layerLocked =
      LayerDrawPath.defaultPath (quatMat4 poseA.orientation) := by
  refine ⟨?_, ?_, ?_⟩
  · exact (drawLayer_dispatch_spec identityPose poseA layerParallax).1.mpr
      ⟨by decide, by decide, by decide⟩
  · have h2 := (drawLayer_dispatch_spec identityPose identityPose
      layerParallax).2.1 (by decide) rfl
    simpa using h2
  · exact (drawLayer_dispatch_spec identityPose poseA layerLocked).2.2.1
      (by decide)

end ARP
